import Mathlib

/-!
# Carousel controller of `src/script.js` (`initSlider`)

A shallow embedding of the closure created by `initSlider`: the closure variables
(`currentIndex`, `slideWidth`, `isDragging`, `startPos`, `currentTranslate`,
`prevTranslate`, `animationID`, `autoSlideInterval`) together with the part of the host
environment the handlers write to (the track's `style.transform` and `style.transition`,
the active dot, the live `setInterval` timers, the pending `setTimeout` tasks and the
pending `requestAnimationFrame` requests).

Modelling conventions.
* Pixel quantities and indices are integers (`Int`); `clientWidth` is a non-negative
  integer (`Nat`).
* `style.transform` is recorded as the horizontal offset in pixels that the assigned
  string denotes: `translateX(-${v}px)` is the offset `-v`, `translateX(${v}px)` is `v`.
* Timer and frame handles are positive integers handed out in increasing order; the
  initial `autoSlideInterval` is `undefined` (`none`), the initial `animationID` is `0`,
  which is never a live handle.
-/

namespace Slider

/-- Inline `style.transition` of the track: not yet written by the script, `'none'`, or
`'transform 0.5s ease'`. -/
inductive Transition where
  | unset
  | none
  | ease
  deriving DecidableEq, Repr

/-- What `initSlider` finds in the document: whether `.slider-track`, `.slider-prev`,
`.slider-next` and `.slider-dots` exist, and the `clientWidth` of every `.slide`. -/
structure Dom where
  sliderTrack : Bool
  slides : List Nat
  prevBtn : Bool
  nextBtn : Bool
  dotsContainer : Bool
  deriving DecidableEq, Repr

/-- Listeners registered by `initSlider`, in registration order. -/
inductive Listener where
  | dotClick (index : Nat)
  | prevClick
  | nextClick
  | trackMouseenter
  | trackMouseleave
  | windowResize
  | slideTouchstart (index : Nat)
  | slideTouchend (index : Nat)
  | slideTouchmove (index : Nat)
  deriving DecidableEq, Repr

/-- A pointer event as read by `getPositionX`: whether `event.type` contains `mouse`,
its `pageX`, and `touches[0].clientX`. -/
structure PointerEvent where
  isMouse : Bool
  pageX : Int
  clientX : Int
  deriving DecidableEq, Repr

/-- A touch event whose first touch point is at horizontal position `x`. -/
def touchAt (x : Int) : PointerEvent := { isMouse := false, pageX := x, clientX := x }

/-- Closure variables of `initSlider` and the host state its handlers write. -/
structure State where
  slidesLength : Nat
  currentIndex : Int
  slideWidth : Nat
  isDragging : Bool
  startPos : Int
  currentTranslate : Int
  prevTranslate : Int
  animationID : Nat
  autoSlideInterval : Option Nat
  transform : Int
  transition : Transition
  activeDot : Int
  intervals : List Nat
  nextInterval : Nat
  timeouts : List Nat
  frames : List Nat
  nextFrame : Nat
  deriving DecidableEq, Repr

/-- Period of the autoplay timer in milliseconds. -/
def AUTO_SLIDE_INTERVAL : Nat := 5000

/-- Source `updateSlider`: writes `translateX(-${currentIndex * slideWidth}px)` and marks
the dot whose index equals `currentIndex`. -/
def updateSlider (s : State) : State :=
  { s with transform := -(s.currentIndex * (s.slideWidth : Int)), activeDot := s.currentIndex }

/-- Host `setInterval` as used by `startAutoSlide`: a fresh handle becomes live and is
stored in `autoSlideInterval`. -/
def startAutoSlide (s : State) : State :=
  { s with autoSlideInterval := some s.nextInterval,
           intervals := s.intervals ++ [s.nextInterval],
           nextInterval := s.nextInterval + 1 }

/-- Source `stopAutoSlide`: `clearInterval(autoSlideInterval)`; clearing `undefined` or a
handle that is not live does nothing. -/
def stopAutoSlide (s : State) : State :=
  match s.autoSlideInterval with
  | Option.none => s
  | some h => { s with intervals := s.intervals.filter (fun t => t != h) }

/-- Source `resetAutoSlide`. -/
def resetAutoSlide (s : State) : State := startAutoSlide (stopAutoSlide s)

/-- Source `goToSlide`: `Math.max(0, Math.min(index, slides.length - 1))`. -/
def goToSlide (s : State) (index : Int) : State :=
  resetAutoSlide (updateSlider
    { s with currentIndex := max 0 (min index ((s.slidesLength : Int) - 1)) })

/-- Callback passed to `setInterval` in `startAutoSlide`. -/
def autoSlideTick (s : State) : State :=
  updateSlider
    { s with currentIndex :=
        if s.currentIndex < (s.slidesLength : Int) - 1 then s.currentIndex + 1 else 0 }

/-- Click handler of `.slider-prev`. -/
def prevClick (s : State) : State :=
  resetAutoSlide (updateSlider
    { s with currentIndex :=
        if s.currentIndex > 0 then s.currentIndex - 1 else (s.slidesLength : Int) - 1 })

/-- Click handler of `.slider-next`. -/
def nextClick (s : State) : State :=
  resetAutoSlide (updateSlider
    { s with currentIndex :=
        if s.currentIndex < (s.slidesLength : Int) - 1 then s.currentIndex + 1 else 0 })

/-- Source `handleResize`; `w` is the re-measured `slides[0].clientWidth`. The
`setTimeout(..., 100)` task is queued with its delay. -/
def handleResize (s : State) (w : Nat) : State :=
  let s1 := { s with slideWidth := w }
  let s2 := { s1 with transition := Transition.none }
  let s3 := updateSlider s2
  { s3 with timeouts := s3.timeouts ++ [100] }

/-- Callback of the `setTimeout` in `handleResize`. -/
def resizeTimeout (s : State) : State := { s with transition := Transition.ease }

/-- Source `getPositionX`. -/
def getPositionX (e : PointerEvent) : Int := if e.isMouse then e.pageX else e.clientX

/-- Source `touchStart(index)` applied to an event. -/
def touchStart (index : Nat) (s : State) (e : PointerEvent) : State :=
  { s with currentIndex := (index : Int),
           startPos := getPositionX e,
           isDragging := true,
           animationID := s.nextFrame,
           frames := s.frames ++ [s.nextFrame],
           nextFrame := s.nextFrame + 1,
           transition := Transition.none }

/-- Source `setPositionByIndex`. -/
def setPositionByIndex (s : State) : State :=
  let s1 := { s with currentTranslate := s.currentIndex * -(s.slideWidth : Int) }
  let s2 := { s1 with prevTranslate := s1.currentTranslate }
  updateSlider s2

/-- Source `touchEnd`. -/
def touchEnd (s : State) : State :=
  let s1 := { s with isDragging := false }
  let s2 := { s1 with frames := s1.frames.filter (fun f => f != s1.animationID) }
  let movedBy := s2.currentTranslate - s2.prevTranslate
  let s3 := if movedBy < -100 ∧ s2.currentIndex < (s2.slidesLength : Int) - 1
            then { s2 with currentIndex := s2.currentIndex + 1 } else s2
  let s4 := if movedBy > 100 ∧ s3.currentIndex > 0
            then { s3 with currentIndex := s3.currentIndex - 1 } else s3
  let s5 := setPositionByIndex s4
  { s5 with transition := Transition.ease }

/-- Source `touchMove`. -/
def touchMove (s : State) (e : PointerEvent) : State :=
  if s.isDragging then
    { s with currentTranslate := s.prevTranslate + getPositionX e - s.startPos }
  else s

/-- Source `animation`, run when the frame request `id` is served: paints
`translateX(${currentTranslate}px)` and, while dragging, requests another frame (whose
handle is not stored). -/
def animation (s : State) (id : Nat) : State :=
  let s1 := { s with frames := s.frames.filter (fun f => f != id) }
  let s2 := { s1 with transform := s1.currentTranslate }
  if s2.isDragging then
    { s2 with frames := s2.frames ++ [s2.nextFrame], nextFrame := s2.nextFrame + 1 }
  else s2

/-- Outcome of `initSlider`: the guard warned and returned; a `TypeError` escaped after
the listed dots and listeners had been created; or the controller is running. -/
inductive InitResult where
  | skipped (warnings : Nat)
  | typeError (warnings : Nat) (dots : Nat) (listeners : List Listener) (timers : Nat)
  | running (s : State) (dots : Nat) (listeners : List Listener)
  deriving DecidableEq, Repr

/-- Listeners attached by `createDots`, one per slide. -/
def dotListeners (n : Nat) : List Listener := (List.range n).map Listener.dotClick

/-- Listeners attached by the `slides.forEach` block (the `dragstart` listeners on the
images inside a slide are left out). -/
def touchListeners (n : Nat) : List Listener :=
  (List.range n).flatMap (fun i =>
    [Listener.slideTouchstart i, Listener.slideTouchend i, Listener.slideTouchmove i])

/-- Closure state right after the `let` declarations of `initSlider`, before
`startAutoSlide()`. The track has not been translated yet (offset `0`) and the first dot
is the active one, as `createDots` leaves it. -/
def initialState (n w : Nat) : State :=
  { slidesLength := n, currentIndex := 0, slideWidth := w, isDragging := false,
    startPos := 0, currentTranslate := 0, prevTranslate := 0, animationID := 0,
    autoSlideInterval := Option.none, transform := 0, transition := Transition.unset,
    activeDot := 0, intervals := [], nextInterval := 1, timeouts := [], frames := [],
    nextFrame := 1 }

/-- Source `initSlider`, statement by statement: the guard on the track and the slides,
`createDots()` (which dereferences `dotsContainer`), `prevBtn.addEventListener`,
`nextBtn.addEventListener`, `startAutoSlide()` and the remaining registrations. -/
def initSlider (d : Dom) : InitResult :=
  if !d.sliderTrack || d.slides.length == 0 then InitResult.skipped 1
  else
    let n := d.slides.length
    let w := d.slides.headD 0
    if !d.dotsContainer then InitResult.typeError 0 0 [] 0
    else
      let l1 := dotListeners n
      if !d.prevBtn then InitResult.typeError 0 n l1 0
      else
        let l2 := l1 ++ [Listener.prevClick]
        if !d.nextBtn then InitResult.typeError 0 n l2 0
        else
          let l3 := l2 ++ [Listener.nextClick]
          let s := startAutoSlide (initialState n w)
          InitResult.running s n
            (l3 ++ [Listener.trackMouseenter, Listener.trackMouseleave,
                    Listener.windowResize] ++ touchListeners n)

/-- Events delivered to the running controller. -/
inductive Event where
  | goTo (index : Int)
  | prev
  | next
  | interval (id : Nat)
  | mouseenter
  | mouseleave
  | resize (w : Nat)
  | timeout
  | touchstart (index : Nat) (e : PointerEvent)
  | touchmove (e : PointerEvent)
  | touchend
  | frame (id : Nat)
  deriving DecidableEq, Repr

/-- An event can be delivered: a timer fires only while live, a timeout only while
queued, a frame only while requested, and `touchstart` comes from an existing slide.
`goToSlide` is admitted with any integer, although the dots only pass `0 .. N-1`. -/
def Enabled (s : State) : Event → Bool
  | Event.interval id => decide (id ∈ s.intervals)
  | Event.timeout => !s.timeouts.isEmpty
  | Event.touchstart index _ => decide (index < s.slidesLength)
  | Event.frame id => decide (id ∈ s.frames)
  | _ => true

/-- Handler dispatch. -/
def step (s : State) : Event → State
  | Event.goTo index => goToSlide s index
  | Event.prev => prevClick s
  | Event.next => nextClick s
  | Event.interval _ => autoSlideTick s
  | Event.mouseenter => stopAutoSlide s
  | Event.mouseleave => startAutoSlide s
  | Event.resize w => handleResize s w
  | Event.timeout => resizeTimeout { s with timeouts := s.timeouts.tail }
  | Event.touchstart index e => touchStart index s e
  | Event.touchmove e => touchMove s e
  | Event.touchend => touchEnd s
  | Event.frame id => animation s id

/-- Runs a sequence of events. -/
def run (s : State) (evs : List Event) : State := evs.foldl step s

/-- States the controller can be in: the state left by a successful `initSlider`, closed
under every deliverable event. -/
inductive Reachable : State → Prop where
  | init (d : Dom) (s : State) (dots : Nat) (ls : List Listener) :
      initSlider d = InitResult.running s dots ls → Reachable s
  | step (s : State) (e : Event) : Reachable s → Enabled s e = true → Reachable (step s e)

/-- One autoplay period: every live timer fires its callback once. -/
def autoplayPeriod (s : State) : State := s.intervals.foldl (fun acc _ => autoSlideTick acc) s

/-- The spec's `clamp(i, lo, hi)`. -/
def clamp (i lo hi : Int) : Int := if i < lo then lo else if hi < i then hi else i

/-- Document with `n` slides of width `w` and every control present. -/
def fullDom (n w : Nat) : Dom :=
  { sliderTrack := true, slides := List.replicate n w, prevBtn := true, nextBtn := true,
    dotsContainer := true }

/-- State left by `initSlider` on `fullDom n w`. -/
def started (n w : Nat) : State := startAutoSlide (initialState n w)

/-- Index range invariant: there is at least one slide and `currentIndex` is one of
`0 .. slides.length - 1`. -/
def IndexInRange (s : State) : Prop :=
  1 ≤ s.slidesLength ∧ 0 ≤ s.currentIndex ∧ s.currentIndex ≤ (s.slidesLength : Int) - 1

/-- Outside a drag the live offset variable equals the base offset variable. -/
def IdleSynced (s : State) : Prop :=
  s.isDragging = false → s.currentTranslate = s.prevTranslate

/-- The stored slide width is `w` and the painted offset is the resting offset of the
current slide at that width. -/
def RenderedAt (w : Nat) (s : State) : Prop :=
  s.slideWidth = w ∧ s.transform = -(s.currentIndex * (w : Int))

/-- Events that may arrive between the `touchstart` and the `touchend` of one drag:
everything except another `touchstart` or a `touchend`. -/
def insideDrag : Event → Bool
  | Event.touchstart _ _ => false
  | Event.touchend => false
  | _ => true

/-- Events whose handler does not assign `currentIndex`. -/
def keepsIndex : Event → Bool
  | Event.goTo _ => false
  | Event.prev => false
  | Event.next => false
  | Event.interval _ => false
  | Event.touchstart _ _ => false
  | Event.touchend => false
  | _ => true

/-- Pointer position after a sequence of events: the position of the last `touchmove`,
or `x` when there is none. -/
def lastPointerX (x : Int) : List Event → Int
  | [] => x
  | Event.touchmove e :: evs => lastPointerX (getPositionX e) evs
  | _ :: evs => lastPointerX x evs

/-- Index chosen by the swipe rule from the index `c` in force when the drag ends, the
displacement `d` and the slide count `n`: one step forward for `d < -100` below the last
slide, one step back for `d > 100` above the first slide, otherwise `c`. -/
def swipeTarget (c d : Int) (n : Nat) : Int :=
  if d < -100 ∧ c < (n : Int) - 1 then c + 1
  else if d > 100 ∧ c > 0 then c - 1
  else c

/-- A drag with origin `x0` is in progress, the pointer is at `x`, and the two translate
variables differ by the displacement so far. -/
def DragAt (x0 x : Int) (s : State) : Prop :=
  s.isDragging = true ∧ s.startPos = x0 ∧ s.currentTranslate - s.prevTranslate = x - x0

/-- Every event of the sequence is deliverable at the moment it is delivered. -/
def allEnabled : State → List Event → Bool
  | _, [] => true
  | s, e :: evs => Enabled s e && allEnabled (step s e) evs

/-- Document with two slides of width 300 whose `.slider-dots` container is absent. -/
def domNoDots : Dom :=
  { sliderTrack := true, slides := [300, 300], prevBtn := true, nextBtn := true,
    dotsContainer := false }

/-- Document with two slides of width 300 whose `.slider-prev` button is absent. -/
def domNoPrev : Dom :=
  { sliderTrack := true, slides := [300, 300], prevBtn := false, nextBtn := true,
    dotsContainer := true }

/-- Document with two slides of width 300 whose `.slider-next` button is absent. -/
def domNoNext : Dom :=
  { sliderTrack := true, slides := [300, 300], prevBtn := true, nextBtn := false,
    dotsContainer := true }

/-! ## Helper lemmas -/

theorem resetAutoSlide_currentIndex (s : State) :
    (resetAutoSlide s).currentIndex = s.currentIndex := by
  unfold resetAutoSlide startAutoSlide stopAutoSlide
  split <;> rfl

theorem resetAutoSlide_transform (s : State) :
    (resetAutoSlide s).transform = s.transform := by
  unfold resetAutoSlide startAutoSlide stopAutoSlide
  split <;> rfl

theorem resetAutoSlide_slideWidth (s : State) :
    (resetAutoSlide s).slideWidth = s.slideWidth := by
  unfold resetAutoSlide startAutoSlide stopAutoSlide
  split <;> rfl

theorem resetAutoSlide_slidesLength (s : State) :
    (resetAutoSlide s).slidesLength = s.slidesLength := by
  unfold resetAutoSlide startAutoSlide stopAutoSlide
  split <;> rfl

theorem resetAutoSlide_isDragging (s : State) :
    (resetAutoSlide s).isDragging = s.isDragging := by
  unfold resetAutoSlide startAutoSlide stopAutoSlide
  split <;> rfl

theorem resetAutoSlide_currentTranslate (s : State) :
    (resetAutoSlide s).currentTranslate = s.currentTranslate := by
  unfold resetAutoSlide startAutoSlide stopAutoSlide
  split <;> rfl

theorem resetAutoSlide_prevTranslate (s : State) :
    (resetAutoSlide s).prevTranslate = s.prevTranslate := by
  unfold resetAutoSlide startAutoSlide stopAutoSlide
  split <;> rfl

theorem stopAutoSlide_fields (s : State) :
    (stopAutoSlide s).currentIndex = s.currentIndex ∧
    (stopAutoSlide s).slidesLength = s.slidesLength ∧
    (stopAutoSlide s).isDragging = s.isDragging ∧
    (stopAutoSlide s).currentTranslate = s.currentTranslate ∧
    (stopAutoSlide s).prevTranslate = s.prevTranslate := by
  unfold stopAutoSlide
  split <;> simp

/-- Index left by `touchEnd`, as a function of the index and the two translate
variables it reads. -/
theorem touchEnd_currentIndex (s : State) :
    (touchEnd s).currentIndex =
      if s.currentTranslate - s.prevTranslate < -100 ∧
          s.currentIndex < (s.slidesLength : Int) - 1 then s.currentIndex + 1
      else if s.currentTranslate - s.prevTranslate > 100 ∧ s.currentIndex > 0
        then s.currentIndex - 1
      else s.currentIndex := by
  simp only [touchEnd, setPositionByIndex, updateSlider]
  split_ifs <;> simp_all
  all_goals omega

theorem initSlider_running (d : Dom) (s : State) (dots : Nat) (ls : List Listener)
    (h : initSlider d = InitResult.running s dots ls) :
    1 ≤ d.slides.length ∧ s = started d.slides.length (d.slides.headD 0) := by
  unfold initSlider at h
  split_ifs at h with h1 h2 h3 h4
  simp only [InitResult.running.injEq] at h
  refine ⟨?_, h.1.symm⟩
  simp only [Bool.or_eq_true, Bool.not_eq_true, beq_iff_eq, not_or] at h1
  omega

theorem indexInRange_step (s : State) (e : Event) (hs : IndexInRange s)
    (he : Enabled s e = true) : IndexInRange (step s e) := by
  obtain ⟨hN, h0, h1⟩ := hs
  cases e with
  | goTo index =>
    simp only [step, goToSlide, IndexInRange, resetAutoSlide_currentIndex,
      resetAutoSlide_slidesLength, updateSlider]
    omega
  | prev =>
    simp only [step, prevClick, IndexInRange, resetAutoSlide_currentIndex,
      resetAutoSlide_slidesLength, updateSlider]
    split_ifs <;> omega
  | next =>
    simp only [step, nextClick, IndexInRange, resetAutoSlide_currentIndex,
      resetAutoSlide_slidesLength, updateSlider]
    split_ifs <;> omega
  | interval id =>
    simp only [step, autoSlideTick, IndexInRange, updateSlider]
    split_ifs <;> omega
  | mouseenter =>
    obtain ⟨a, b, _⟩ := stopAutoSlide_fields s
    simp only [step, IndexInRange, a, b]
    omega
  | mouseleave => exact ⟨hN, h0, h1⟩
  | resize w => exact ⟨hN, h0, h1⟩
  | timeout => exact ⟨hN, h0, h1⟩
  | touchstart index ev =>
    simp only [Enabled, decide_eq_true_eq] at he
    simp only [step, touchStart, IndexInRange]
    omega
  | touchmove ev =>
    simp only [step, touchMove, IndexInRange]
    split_ifs <;> exact ⟨hN, h0, h1⟩
  | touchend =>
    simp only [step, IndexInRange, touchEnd_currentIndex]
    have hl : (touchEnd s).slidesLength = s.slidesLength := by
      simp only [touchEnd, setPositionByIndex, updateSlider]
      split_ifs <;> rfl
    rw [hl]
    split_ifs <;> omega
  | frame id =>
    simp only [step, animation, IndexInRange]
    split_ifs <;> exact ⟨hN, h0, h1⟩

theorem idleSynced_step (s : State) (e : Event) (hs : IdleSynced s) :
    IdleSynced (step s e) := by
  unfold IdleSynced at *
  cases e with
  | goTo index =>
    simp only [step, goToSlide, resetAutoSlide_isDragging, resetAutoSlide_currentTranslate,
      resetAutoSlide_prevTranslate, updateSlider]
    exact hs
  | prev =>
    simp only [step, prevClick, resetAutoSlide_isDragging, resetAutoSlide_currentTranslate,
      resetAutoSlide_prevTranslate, updateSlider]
    exact hs
  | next =>
    simp only [step, nextClick, resetAutoSlide_isDragging, resetAutoSlide_currentTranslate,
      resetAutoSlide_prevTranslate, updateSlider]
    exact hs
  | interval id => exact hs
  | mouseenter =>
    obtain ⟨_, _, a, b, c⟩ := stopAutoSlide_fields s
    simp only [step, a, b, c]
    exact hs
  | mouseleave => exact hs
  | resize w => exact hs
  | timeout => exact hs
  | touchstart index ev =>
    intro h
    simp [step, touchStart] at h
  | touchmove ev =>
    simp only [step, touchMove]
    split_ifs with hd
    · intro h
      simp [hd] at h
    · exact hs
  | touchend =>
    intro _
    simp only [step, touchEnd, setPositionByIndex, updateSlider]
  | frame id =>
    simp only [step, animation]
    split_ifs with hd
    · intro h
      simp [hd] at h
    · exact hs

theorem reachable_indexInRange (s : State) (h : Reachable s) : IndexInRange s := by
  induction h with
  | init d s dots ls hi =>
    obtain ⟨hn, rfl⟩ := initSlider_running d s dots ls hi
    exact ⟨hn, le_refl _, by simp only [started, startAutoSlide, initialState]; omega⟩
  | step s e _ he ih => exact indexInRange_step s e ih he

theorem reachable_idleSynced (s : State) (h : Reachable s) : IdleSynced s := by
  induction h with
  | init d s dots ls hi =>
    obtain ⟨_, rfl⟩ := initSlider_running d s dots ls hi
    intro _
    rfl
  | step s e _ _ ih => exact idleSynced_step s e ih

/-! ## Claims -/

/-- C1: for at least one slide, any stored slide width and any integer `i`, `goToSlide i`
leaves `currentIndex = clamp i 0 (N-1)` and paints the offset `-(clamp i 0 (N-1)) * W`;
the slide count and width are untouched. `goToSlide` is a total function, so no input
raises an error. -/
theorem goToSlide_clamp (s : State) (i : Int) (hN : 1 ≤ s.slidesLength) :
    (goToSlide s i).currentIndex = clamp i 0 ((s.slidesLength : Int) - 1) ∧
    (goToSlide s i).transform =
      -(clamp i 0 ((s.slidesLength : Int) - 1)) * (s.slideWidth : Int) ∧
    (goToSlide s i).slideWidth = s.slideWidth ∧
    (goToSlide s i).slidesLength = s.slidesLength := by
  have hc : max 0 (min i ((s.slidesLength : Int) - 1)) =
      clamp i 0 ((s.slidesLength : Int) - 1) := by
    unfold clamp
    split_ifs <;> omega
  simp only [goToSlide, resetAutoSlide_currentIndex, resetAutoSlide_transform,
    resetAutoSlide_slideWidth, resetAutoSlide_slidesLength, updateSlider, hc, neg_mul,
    and_self]

/-- Witness for C1: four slides of width 300, `goToSlide (-7)` and `goToSlide 9`. -/
theorem goToSlide_clamp_witness :
    (goToSlide (started 4 300) (-7)).currentIndex = 0 ∧
    (goToSlide (started 4 300) 9).currentIndex = 3 ∧
    (goToSlide (started 4 300) 9).transform = -900 := by
  have h1 := goToSlide_clamp (started 4 300) (-7) (by decide)
  have h2 := goToSlide_clamp (started 4 300) 9 (by decide)
  exact ⟨h1.1.trans (by decide), h2.1.trans (by decide), h2.2.1.trans (by decide)⟩

/-- C2: with `N ≥ 1` slides and the index `c` in `[0, N-1]`, the next handler sets the
index to `c+1` below the last slide and to `0` on it, the prev handler to `c-1` above the
first slide and to `N-1` on it; these are `(c+1) mod N` and `(c-1) mod N`. -/
theorem next_prev_wrap (s : State) (hN : 1 ≤ s.slidesLength) (h0 : 0 ≤ s.currentIndex)
    (h1 : s.currentIndex ≤ (s.slidesLength : Int) - 1) :
    ((nextClick s).currentIndex =
      if s.currentIndex < (s.slidesLength : Int) - 1 then s.currentIndex + 1 else 0) ∧
    ((prevClick s).currentIndex =
      if s.currentIndex > 0 then s.currentIndex - 1 else (s.slidesLength : Int) - 1) ∧
    (nextClick s).currentIndex = (s.currentIndex + 1) % (s.slidesLength : Int) ∧
    (prevClick s).currentIndex = (s.currentIndex - 1) % (s.slidesLength : Int) := by
  simp only [nextClick, prevClick, resetAutoSlide_currentIndex, updateSlider, true_and]
  constructor
  · split_ifs with h
    · rw [Int.emod_eq_of_lt (by omega) (by omega)]
    · have : s.currentIndex + 1 = (s.slidesLength : Int) := by omega
      rw [this, Int.emod_self]
  · split_ifs with h
    · rw [Int.emod_eq_of_lt (by omega) (by omega)]
    · have : s.currentIndex - 1 = -1 := by omega
      rw [this, Int.neg_emod, Int.emod_eq_of_lt (by omega) (by omega)]

/-- Witness for C2: four slides, on the last slide next wraps to the first. -/
theorem next_prev_wrap_witness :
    (nextClick { started 4 300 with currentIndex := 3 }).currentIndex = 0 ∧
    (prevClick (started 4 300)).currentIndex = 3 :=
  ⟨(next_prev_wrap { started 4 300 with currentIndex := 3 } (by decide) (by decide)
      (by decide)).1.trans (by decide),
   (next_prev_wrap (started 4 300) (by decide) (by decide) (by decide)).2.1.trans
      (by decide)⟩

theorem started_reachable (n w : Nat) (hn : 1 ≤ n) : Reachable (started n w) := by
  refine Reachable.init (fullDom n w) (started n w) n
    (dotListeners n ++ [Listener.prevClick] ++ [Listener.nextClick] ++
      [Listener.trackMouseenter, Listener.trackMouseleave, Listener.windowResize] ++
      touchListeners n) ?_
  cases n with
  | zero => omega
  | succ m => simp [initSlider, fullDom, started, List.replicate_succ]

theorem reachable_run (evs : List Event) (s : State) (hs : Reachable s)
    (he : allEnabled s evs = true) : Reachable (run s evs) := by
  induction evs generalizing s with
  | nil => exact hs
  | cons e evs ih =>
    simp only [allEnabled, Bool.and_eq_true] at he
    exact ih (step s e) (Reachable.step s e hs he.1) he.2

theorem resetAutoSlide_startPos (s : State) :
    (resetAutoSlide s).startPos = s.startPos := by
  unfold resetAutoSlide startAutoSlide stopAutoSlide
  split <;> rfl

theorem stopAutoSlide_startPos (s : State) :
    (stopAutoSlide s).startPos = s.startPos := by
  unfold stopAutoSlide
  split <;> rfl

theorem step_slidesLength (s : State) (e : Event) :
    (step s e).slidesLength = s.slidesLength := by
  cases e with
  | goTo index => simp only [step, goToSlide, resetAutoSlide_slidesLength, updateSlider]
  | prev => simp only [step, prevClick, resetAutoSlide_slidesLength, updateSlider]
  | next => simp only [step, nextClick, resetAutoSlide_slidesLength, updateSlider]
  | interval id => rfl
  | mouseenter => exact (stopAutoSlide_fields s).2.1
  | mouseleave => rfl
  | resize w => rfl
  | timeout => rfl
  | touchstart index ev => rfl
  | touchmove ev =>
    simp only [step, touchMove]
    split_ifs <;> rfl
  | touchend =>
    simp only [step, touchEnd, setPositionByIndex, updateSlider]
    split_ifs <;> rfl
  | frame id =>
    simp only [step, animation]
    split_ifs <;> rfl

theorem run_slidesLength (evs : List Event) (s : State) :
    (run s evs).slidesLength = s.slidesLength := by
  induction evs generalizing s with
  | nil => rfl
  | cons e evs ih =>
    show (run (step s e) evs).slidesLength = s.slidesLength
    rw [ih, step_slidesLength]

theorem keepsIndex_step (s : State) (e : Event) (he : keepsIndex e = true) :
    (step s e).currentIndex = s.currentIndex := by
  cases e with
  | goTo index => simp [keepsIndex] at he
  | prev => simp [keepsIndex] at he
  | next => simp [keepsIndex] at he
  | interval id => simp [keepsIndex] at he
  | mouseenter => exact (stopAutoSlide_fields s).1
  | mouseleave => rfl
  | resize w => rfl
  | timeout => rfl
  | touchstart index ev => simp [keepsIndex] at he
  | touchmove ev =>
    simp only [step, touchMove]
    split_ifs <;> rfl
  | touchend => simp [keepsIndex] at he
  | frame id =>
    simp only [step, animation]
    split_ifs <;> rfl

theorem keepsIndex_run (evs : List Event) (s : State)
    (h : ∀ e ∈ evs, keepsIndex e = true) : (run s evs).currentIndex = s.currentIndex := by
  induction evs generalizing s with
  | nil => rfl
  | cons e evs ih =>
    show (run (step s e) evs).currentIndex = s.currentIndex
    rw [ih (step s e) (fun a ha => h a (List.mem_cons_of_mem e ha)),
      keepsIndex_step s e (h e (List.mem_cons_self e evs))]

theorem dragAt_step (x0 x : Int) (s : State) (e : Event) (hs : DragAt x0 x s)
    (he : insideDrag e = true) : DragAt x0 (lastPointerX x [e]) (step s e) := by
  obtain ⟨hd, hp, hm⟩ := hs
  cases e with
  | goTo index =>
    simp only [DragAt, lastPointerX, step, goToSlide, resetAutoSlide_isDragging,
      resetAutoSlide_startPos, resetAutoSlide_currentTranslate, resetAutoSlide_prevTranslate,
      updateSlider]
    exact ⟨hd, hp, hm⟩
  | prev =>
    simp only [DragAt, lastPointerX, step, prevClick, resetAutoSlide_isDragging,
      resetAutoSlide_startPos, resetAutoSlide_currentTranslate, resetAutoSlide_prevTranslate,
      updateSlider]
    exact ⟨hd, hp, hm⟩
  | next =>
    simp only [DragAt, lastPointerX, step, nextClick, resetAutoSlide_isDragging,
      resetAutoSlide_startPos, resetAutoSlide_currentTranslate, resetAutoSlide_prevTranslate,
      updateSlider]
    exact ⟨hd, hp, hm⟩
  | interval id => exact ⟨hd, hp, hm⟩
  | mouseenter =>
    obtain ⟨_, _, a, b, c⟩ := stopAutoSlide_fields s
    simp only [DragAt, lastPointerX, step, a, b, c, stopAutoSlide_startPos]
    exact ⟨hd, hp, hm⟩
  | mouseleave => exact ⟨hd, hp, hm⟩
  | resize w => exact ⟨hd, hp, hm⟩
  | timeout => exact ⟨hd, hp, hm⟩
  | touchstart index ev => simp [insideDrag] at he
  | touchmove ev =>
    simp only [DragAt, lastPointerX, step, touchMove, hd, if_true]
    refine ⟨trivial, hp, ?_⟩
    rw [hp]
    omega
  | touchend => simp [insideDrag] at he
  | frame id =>
    simp only [DragAt, lastPointerX, step, animation, hd, if_true]
    exact ⟨trivial, hp, hm⟩

theorem lastPointerX_cons (x : Int) (e : Event) (evs : List Event) :
    lastPointerX x (e :: evs) = lastPointerX (lastPointerX x [e]) evs := by
  cases e <;> rfl

theorem dragAt_run (x0 : Int) (evs : List Event) (x : Int) (s : State)
    (hs : DragAt x0 x s) (h : ∀ e ∈ evs, insideDrag e = true) :
    DragAt x0 (lastPointerX x evs) (run s evs) := by
  induction evs generalizing s x with
  | nil => exact hs
  | cons e evs ih =>
    rw [lastPointerX_cons]
    exact ih (lastPointerX x [e]) (step s e)
      (dragAt_step x0 x s e hs (h e (List.mem_cons_self e evs)))
      (fun a ha => h a (List.mem_cons_of_mem e ha))

/-- C3 as the code has it. A drag starts from Idle in a reachable state with `touchstart`
on slide `c` of `N`; any deliverable events other than a further `touchstart` or
`touchend` follow; then `touchend` runs. The index it leaves is the swipe rule applied to
the index `c'` in force at that moment and the displacement `d` (last `touchmove`
position minus the origin): `c'+1` if `d < -100` and `c' < N-1`, `c'-1` if `d > 100` and
`c' > 0`, else `c'`. It lies in `[0, N-1]` and within one step of `c'`. When no event
inside the drag assigns the index (no tick, button or dot), `c' = c`. -/
theorem dragEnd_index (s : State) (c : Nat) (e0 : PointerEvent) (evs : List Event)
    (hs : Reachable s) (hidle : s.isDragging = false) (hc : c < s.slidesLength)
    (hin : ∀ e ∈ evs, insideDrag e = true)
    (hen : allEnabled (touchStart c s e0) evs = true) :
    (touchEnd (run (touchStart c s e0) evs)).currentIndex =
      swipeTarget (run (touchStart c s e0) evs).currentIndex
        (lastPointerX (getPositionX e0) evs - getPositionX e0) s.slidesLength ∧
    ((∀ e ∈ evs, keepsIndex e = true) →
      (touchEnd (run (touchStart c s e0) evs)).currentIndex =
        swipeTarget (c : Int) (lastPointerX (getPositionX e0) evs - getPositionX e0)
          s.slidesLength) ∧
    0 ≤ (touchEnd (run (touchStart c s e0) evs)).currentIndex ∧
    (touchEnd (run (touchStart c s e0) evs)).currentIndex ≤ (s.slidesLength : Int) - 1 ∧
    (run (touchStart c s e0) evs).currentIndex - 1 ≤
      (touchEnd (run (touchStart c s e0) evs)).currentIndex ∧
    (touchEnd (run (touchStart c s e0) evs)).currentIndex ≤
      (run (touchStart c s e0) evs).currentIndex + 1 := by
  have hsync := reachable_idleSynced s hs hidle
  have h0 : DragAt (getPositionX e0) (getPositionX e0) (touchStart c s e0) := by
    refine ⟨rfl, rfl, ?_⟩
    show s.currentTranslate - s.prevTranslate = _
    rw [hsync]
    omega
  obtain ⟨_, _, hd⟩ := dragAt_run (getPositionX e0) evs (getPositionX e0) _ h0 hin
  have hl : (run (touchStart c s e0) evs).slidesLength = s.slidesLength := by
    rw [run_slidesLength]
    rfl
  have hr0 : Reachable (touchStart c s e0) :=
    Reachable.step s (Event.touchstart c e0) hs (by simpa [Enabled] using hc)
  have hrange := reachable_indexInRange _ (reachable_run evs _ hr0 hen)
  obtain ⟨_, hlo, hhi⟩ := hrange
  rw [hl] at hhi
  have key : (touchEnd (run (touchStart c s e0) evs)).currentIndex =
      swipeTarget (run (touchStart c s e0) evs).currentIndex
        (lastPointerX (getPositionX e0) evs - getPositionX e0) s.slidesLength := by
    rw [touchEnd_currentIndex, hd, hl]
    rfl
  refine ⟨key, ?_, ?_, ?_, ?_, ?_⟩
  · intro hk
    rw [key, keepsIndex_run evs _ hk]
    rfl
  all_goals
    rw [key]
    unfold swipeTarget
    split_ifs <;> omega

/-- Witness for C3: four slides, drag started on slide 0 at x = 200 with only moves and a
frame inside; ending at x = 50 (`d = -150`) gives index 1, ending at x = 150 (`d = -50`)
gives index 0, ending at x = 350 (`d = 150`) gives index 0. -/
theorem dragEnd_index_witness :
    (touchEnd (run (touchStart 0 (started 4 300) (touchAt 200))
      [Event.touchmove (touchAt 120), Event.frame 1,
       Event.touchmove (touchAt 50)])).currentIndex = 1 ∧
    (touchEnd (run (touchStart 0 (started 4 300) (touchAt 200))
      [Event.touchmove (touchAt 150)])).currentIndex = 0 ∧
    (touchEnd (run (touchStart 0 (started 4 300) (touchAt 200))
      [Event.touchmove (touchAt 260), Event.touchmove (touchAt 350)])).currentIndex = 0 :=
  ⟨((dragEnd_index (started 4 300) 0 (touchAt 200)
      [Event.touchmove (touchAt 120), Event.frame 1, Event.touchmove (touchAt 50)]
      (started_reachable 4 300 (by decide)) rfl (by decide) (by decide) (by decide)).2.1
      (by decide)).trans (by decide),
   ((dragEnd_index (started 4 300) 0 (touchAt 200) [Event.touchmove (touchAt 150)]
      (started_reachable 4 300 (by decide)) rfl (by decide) (by decide) (by decide)).2.1
      (by decide)).trans (by decide),
   ((dragEnd_index (started 4 300) 0 (touchAt 200)
      [Event.touchmove (touchAt 260), Event.touchmove (touchAt 350)]
      (started_reachable 4 300 (by decide)) rfl (by decide) (by decide) (by decide)).2.1
      (by decide)).trans (by decide)⟩

/-- Counterexample to C3 as stated, four slides of width 300. A drag started on slide 0
with net displacement `-150` during which the autoplay timer fires ends on index 2, not
`0 + 1`. After `goToSlide 3`, a drag started on the last slide with displacement `-150`
and one tick inside ends on index 1, not 3. A second `touchstart` on slide 1 while a
drag is in progress, released without moving (`d = 0`), ends on index 2, not 1. Every
event is deliverable when it is delivered. -/
theorem drag_every_counterexample :
    allEnabled (started 4 300) [Event.touchstart 0 (touchAt 200),
      Event.touchmove (touchAt 50), Event.interval 1, Event.touchend] = true ∧
    (run (started 4 300) [Event.touchstart 0 (touchAt 200),
      Event.touchmove (touchAt 50), Event.interval 1, Event.touchend]).currentIndex = 2 ∧
    swipeTarget 0 (50 - 200) 4 = 1 ∧
    allEnabled (started 4 300) [Event.goTo 3, Event.touchstart 3 (touchAt 200),
      Event.touchmove (touchAt 50), Event.interval 2, Event.touchend] = true ∧
    (run (started 4 300) [Event.goTo 3, Event.touchstart 3 (touchAt 200),
      Event.touchmove (touchAt 50), Event.interval 2, Event.touchend]).currentIndex = 1 ∧
    swipeTarget 3 (50 - 200) 4 = 3 ∧
    allEnabled (started 4 300) [Event.touchstart 0 (touchAt 200),
      Event.touchmove (touchAt 50), Event.touchstart 1 (touchAt 280),
      Event.touchend] = true ∧
    (run (started 4 300) [Event.touchstart 0 (touchAt 200),
      Event.touchmove (touchAt 50), Event.touchstart 1 (touchAt 280),
      Event.touchend]).currentIndex = 2 ∧
    swipeTarget 1 (280 - 280) 4 = 1 := by
  decide

/-- C4: `currentIndex` lies in `[0, N-1]` with `N ≥ 1` right after initialisation, the
range is preserved by every handler (`goToSlide` with any integer, next, prev, an
autoplay tick, drag start on an existing slide, drag move, drag end, resize, and the
remaining host callbacks), and therefore holds in every reachable state. -/
theorem currentIndex_in_range :
    (∀ d s dots ls, initSlider d = InitResult.running s dots ls → IndexInRange s) ∧
    (∀ s e, IndexInRange s → Enabled s e = true → IndexInRange (step s e)) ∧
    (∀ s, Reachable s → IndexInRange s) :=
  ⟨fun d s dots ls h => reachable_indexInRange s (Reachable.init d s dots ls h),
   indexInRange_step, reachable_indexInRange⟩

/-- Witness for C4: the state reached from four slides by next, next, next, next and
`goToSlide 9` has its index in range. -/
theorem currentIndex_in_range_witness :
    IndexInRange (run (started 4 300)
      [Event.next, Event.next, Event.next, Event.next, Event.goTo 9]) :=
  currentIndex_in_range.2.2 _
    (Reachable.step _ (Event.goTo 9)
      (Reachable.step _ Event.next
        (Reachable.step _ Event.next
          (Reachable.step _ Event.next
            (Reachable.step _ Event.next (started_reachable 4 300 (by decide)) rfl)
            rfl) rfl) rfl) rfl)

/-- C8: `touchMove` never changes `currentIndex`; the only field it can change is
`currentTranslate`; while dragging the new value is
`prevTranslate + (pointerX - startPos)`, and while idle the state is returned as is. -/
theorem touchMove_frame (s : State) (e : PointerEvent) :
    (touchMove s e).currentIndex = s.currentIndex ∧
    touchMove s e = { s with currentTranslate := (touchMove s e).currentTranslate } ∧
    (s.isDragging = true →
      (touchMove s e).currentTranslate = s.prevTranslate + (getPositionX e - s.startPos)) ∧
    (s.isDragging = false → touchMove s e = s) := by
  unfold touchMove
  refine ⟨?_, ?_, ?_, ?_⟩
  · split_ifs <;> rfl
  · split_ifs <;> rfl
  · intro h
    rw [if_pos h]
    show s.prevTranslate + getPositionX e - s.startPos = _
    omega
  · intro h
    simp [h]

/-- Witness for C8: during a drag started at x = 200 a move to x = 50 sets the live
offset to base + (50 - 200); the same move while idle changes nothing. -/
theorem touchMove_frame_witness :
    (touchMove (touchStart 0 (started 4 300) (touchAt 200)) (touchAt 50)).currentTranslate
      = 0 + (50 - 200) ∧
    touchMove (started 4 300) (touchAt 50) = started 4 300 :=
  ⟨(touchMove_frame (touchStart 0 (started 4 300) (touchAt 200)) (touchAt 50)).2.2.1 rfl,
   (touchMove_frame (started 4 300) (touchAt 50)).2.2.2 rfl⟩

/-- C9: `goToSlide`, next, prev, an autoplay tick and `touchEnd` keep the stored slide
width and leave the painted offset at `-currentIndex * W` for that width and the index
they set; `handleResize w` stores the measured width `w`, keeps the index, paints
`-currentIndex * w` with the transition off, and queues a task with delay 100; the
transition is still off after `handleResize` and is turned on when that task runs, which
leaves width, index and offset as they are. -/
theorem rendered_after_navigation (s : State) (i : Int) (id : Nat) (w : Nat) :
    RenderedAt s.slideWidth (goToSlide s i) ∧ RenderedAt s.slideWidth (nextClick s) ∧
    RenderedAt s.slideWidth (prevClick s) ∧
    RenderedAt s.slideWidth (step s (Event.interval id)) ∧
    RenderedAt s.slideWidth (touchEnd s) ∧
    RenderedAt w (handleResize s w) ∧
    (handleResize s w).currentIndex = s.currentIndex ∧
    (handleResize s w).transition = Transition.none ∧
    (handleResize s w).timeouts = s.timeouts ++ [100] ∧
    (resizeTimeout (handleResize s w)).transition = Transition.ease ∧
    RenderedAt w (resizeTimeout (handleResize s w)) ∧
    (resizeTimeout (handleResize s w)).currentIndex = s.currentIndex ∧
    (goToSlide (started 4 300) 2).transform = -600 ∧
    (nextClick (started 4 300)).transform = -300 ∧
    (prevClick (started 4 300)).transform = -900 ∧
    (step (started 4 300) (Event.interval 1)).transform = -300 ∧
    (touchEnd (touchMove (touchStart 1 (started 4 300) (touchAt 200))
      (touchAt 50))).transform = -600 ∧
    (handleResize (nextClick (started 4 300)) 250).transform = -250 := by
  refine ⟨?_, ?_, ?_, ⟨rfl, rfl⟩, ?_, ⟨rfl, rfl⟩, rfl, rfl, rfl, rfl, ⟨rfl, rfl⟩, rfl,
    by decide, by decide, by decide, by decide, by decide, by decide⟩
  · simp only [RenderedAt, goToSlide, resetAutoSlide_transform, resetAutoSlide_currentIndex,
      resetAutoSlide_slideWidth, updateSlider, and_self]
  · simp only [RenderedAt, nextClick, resetAutoSlide_transform, resetAutoSlide_currentIndex,
      resetAutoSlide_slideWidth, updateSlider, and_self]
  · simp only [RenderedAt, prevClick, resetAutoSlide_transform, resetAutoSlide_currentIndex,
      resetAutoSlide_slideWidth, updateSlider, and_self]
  · simp only [RenderedAt, touchEnd, setPositionByIndex, updateSlider]
    split_ifs <;> exact ⟨rfl, rfl⟩

/-- C5, evaluated on the code. With four slides: after `mouseenter` (no timer live) a
swipe of `-150` moves the index to 1 and leaves no timer live; a swipe with the initial
timer live leaves that same timer `1` live, neither cancelled nor restarted; `touchEnd`
never touches the timer fields. After `mouseenter`, next, `mouseleave` two timers are
live, and a further next leaves two timers live (`2` and `4`). -/
theorem manual_navigation_timers :
    (run (started 4 300) [Event.mouseenter, Event.touchstart 0 (touchAt 200),
      Event.touchmove (touchAt 50), Event.touchend]).currentIndex = 1 ∧
    (run (started 4 300) [Event.mouseenter, Event.touchstart 0 (touchAt 200),
      Event.touchmove (touchAt 50), Event.touchend]).intervals = [] ∧
    (run (started 4 300) [Event.touchstart 0 (touchAt 200),
      Event.touchmove (touchAt 50), Event.touchend]).intervals = [1] ∧
    (∀ s : State, (touchEnd s).intervals = s.intervals ∧
      (touchEnd s).autoSlideInterval = s.autoSlideInterval ∧
      (touchEnd s).nextInterval = s.nextInterval) ∧
    (run (started 4 300) [Event.mouseenter, Event.next, Event.mouseleave]).intervals
      = [2, 3] ∧
    (run (started 4 300) [Event.mouseenter, Event.next, Event.mouseleave,
      Event.next]).intervals = [2, 4] ∧
    allEnabled (started 4 300) [Event.mouseenter, Event.next, Event.mouseleave,
      Event.next] = true := by
  refine ⟨by decide, by decide, by decide, ?_, by decide, by decide, by decide⟩
  intro s
  simp only [touchEnd, setPositionByIndex, updateSlider]
  split_ifs <;> exact ⟨rfl, rfl, rfl⟩

/-- C6, evaluated on the code. `startAutoSlide` always adds a timer and cancels none.
With four slides, initialisation followed by `mouseleave` leaves timers `1` and `2`
live, and one autoplay period then moves the index from 0 to 2, whereas with the single
initial timer it moves to 1. The same happens after `mouseenter`, a dot activated from
the keyboard (`goToSlide 0`) and `mouseleave`. -/
theorem startAutoSlide_twice :
    (∀ s : State, (startAutoSlide s).intervals = s.intervals ++ [s.nextInterval]) ∧
    (step (started 4 300) Event.mouseleave).intervals = [1, 2] ∧
    (autoplayPeriod (step (started 4 300) Event.mouseleave)).currentIndex = 2 ∧
    (autoplayPeriod (started 4 300)).currentIndex = 1 ∧
    (run (started 4 300) [Event.mouseenter, Event.goTo 0, Event.mouseleave]).intervals
      = [2, 3] ∧
    (autoplayPeriod
      (run (started 4 300) [Event.mouseenter, Event.goTo 0, Event.mouseleave])).currentIndex
      = 2 :=
  ⟨fun _ => rfl, by decide, by decide, by decide, by decide, by decide⟩

/-- C7, evaluated on the code. With the track and two slides present: a missing dots
container raises a `TypeError` with no warning; a missing prev button raises a
`TypeError` after two dots with click listeners were created; a missing next button
raises it after the prev listener was registered as well. Only a missing track or an
empty slide list takes the warning path. -/
theorem initSlider_missing_elements :
    initSlider domNoDots = InitResult.typeError 0 0 [] 0 ∧
    initSlider domNoPrev =
      InitResult.typeError 0 2 [Listener.dotClick 0, Listener.dotClick 1] 0 ∧
    initSlider domNoNext =
      InitResult.typeError 0 2
        [Listener.dotClick 0, Listener.dotClick 1, Listener.prevClick] 0 ∧
    (∀ d : Dom, d.sliderTrack = false ∨ d.slides = [] →
      initSlider d = InitResult.skipped 1) := by
  refine ⟨by decide, by decide, by decide, ?_⟩
  intro d h
  rcases h with h | h <;> simp [initSlider, h]

/-- C10, evaluated on the code. Two slides of width 100: after a next click the
controller is idle on slide 1, whose resting offset is `-100`, but a drag started there
has base offset `0`, and a move with zero displacement followed by a frame paints `0`.
Likewise, after a swipe to slide 1 and a resize to width 250 the base offset is `-100`
while the resting offset is `-250`. -/
theorem drag_base_offset_stale :
    Reachable (run (started 2 100) [Event.next]) ∧
    (run (started 2 100) [Event.next]).isDragging = false ∧
    (run (started 2 100) [Event.next]).currentIndex = 1 ∧
    (run (started 2 100) [Event.next]).transform = -100 ∧
    (touchStart 1 (run (started 2 100) [Event.next]) (touchAt 50)).prevTranslate = 0 ∧
    (run (started 2 100) [Event.next, Event.touchstart 1 (touchAt 50),
      Event.touchmove (touchAt 50), Event.frame 1]).transform = 0 ∧
    allEnabled (started 2 100) [Event.next, Event.touchstart 1 (touchAt 50),
      Event.touchmove (touchAt 50), Event.frame 1] = true ∧
    (run (started 2 100) [Event.touchstart 0 (touchAt 200), Event.touchmove (touchAt 50),
      Event.touchend, Event.resize 250]).currentIndex = 1 ∧
    (run (started 2 100) [Event.touchstart 0 (touchAt 200), Event.touchmove (touchAt 50),
      Event.touchend, Event.resize 250]).prevTranslate = -100 ∧
    (run (started 2 100) [Event.touchstart 0 (touchAt 200), Event.touchmove (touchAt 50),
      Event.touchend, Event.resize 250]).transform = -250 :=
  ⟨reachable_run _ _ (started_reachable 2 100 (by decide)) (by decide),
   by decide, by decide, by decide, by decide, by decide, by decide, by decide, by decide,
   by decide⟩

end Slider
